import Mathlib

/-!
Verification of the metrics streaming/aggregation client and the sequential
benchmark orchestrator of the ML-benchmark-platform frontend.

The TypeScript sources are shallowly embedded:

* JavaScript runtime values that cross the JSON boundary are modelled by the
  inductive type `JVal` (including `undefined`, since property access on a
  parsed payload of the wrong shape yields `undefined` at runtime).
* React `useState` state of a hook is modelled as a Lean structure; each
  event handler becomes a function from state (plus the event's data) to
  state, applying its `setState` calls in program order.
* `JSON.parse` of an event's data is modelled by an `Option JVal` argument:
  `none` means the parse threw (the handler's `catch` swallows it),
  `some v` is the parsed value.
* Asynchronous request outcomes (`fetch`/`await`) are modelled by explicit
  `Except`-valued arguments describing the settled promise.
* Numeric metric fields (latencies, throughput, memory) are carried around
  by the client but never computed with; they are modelled as `Int`.
-/

/-- Model of a JavaScript runtime value as produced by `JSON.parse`
(plus `undefined`, which property access can produce). -/
inductive JVal where
  | undefined : JVal
  | null : JVal
  | bool (b : Bool) : JVal
  | num (n : Int) : JVal
  | str (s : String) : JVal
  | arr (elems : List JVal) : JVal
  | obj (fields : List (String × JVal)) : JVal

/-- Property access `v[k]` on a JavaScript value: on an object it returns the
first binding of the key (or `undefined`); on primitives and arrays it
returns `undefined` for the payload keys used by this client. -/
def JVal.get : JVal → String → JVal
  | .obj fields, k =>
    match fields.find? (fun p => p.1 = k) with
    | some p => p.2
    | none => .undefined
  | _, _ => .undefined

/-- Property access on `null` or `undefined` throws a `TypeError` in
JavaScript; this predicate marks those receivers. -/
def JVal.accessThrows : JVal → Bool
  | .null => true
  | .undefined => true
  | _ => false

/-- Spreading `...v` into an array literal: arrays spread to their elements,
strings to their characters, everything else throws a `TypeError`
(modelled as `none`). -/
def JVal.spreadElems : JVal → Option (List JVal)
  | .arr elems => some elems
  | .str s => some (s.data.map (fun c => JVal.str (String.mk [c])))
  | _ => none

/-- State of the `useMetrics` hook (`src/frontend/src/hooks/useMetrics.ts`):
one field per `useState`, plus `crashed`, which records that an exception
escaped a React state updater (React then aborts the render, so no field
update of that handler commits). -/
structure MetricsState where
  summaries : JVal
  comparison : JVal
  recentPoints : List JVal
  totalInferences : JVal
  connected : Bool
  error : Option String
  crashed : Bool

/-- Initial `useMetrics` state: `{}`, `{}`, `[]`, `0`, `false`, `null`. -/
def initialMetricsState : MetricsState :=
  { summaries := .obj []
    comparison := .obj []
    recentPoints := []
    totalInferences := .num 0
    connected := false
    error := none
    crashed := false }

/-- JavaScript `list.slice(-200)`: the last 200 elements (the whole list when
it is shorter). -/
def sliceLast200 (l : List α) : List α := l.drop (l.length - 200)

/-- Merge of a streamed batch into the recent-sample window, from
`useMetrics.ts` lines 45-49: `[...prev, ...data.recent].slice(-200)`. -/
def mergeRecent (prev batch : List JVal) : List JVal :=
  sliceLast200 (prev ++ batch)

/-- The SSE `es.onmessage` handler (`useMetrics.ts` lines 40-53).
`eventData` is the outcome of `JSON.parse(event.data)` (`none` = parse
threw). On `null` data the property access `data.summaries` throws inside
the `try` and is caught. When `data.recent` is not spreadable the throw
happens inside the `setRecentPoints` updater, outside the `try`: the render
aborts and none of the handler's updates commits (`crashed` is set). -/
def onmessage (st : MetricsState) (eventData : Option JVal) : MetricsState :=
  match eventData with
  | none => st
  | some d =>
    if d.accessThrows then st
    else
      match (d.get "recent").spreadElems with
      | some batch =>
        { st with
          summaries := d.get "summaries"
          totalInferences := d.get "total"
          recentPoints := mergeRecent st.recentPoints batch }
      | none => { st with crashed := true }

/-- The SSE `es.onopen` handler (`useMetrics.ts` line 38). -/
def onopen (st : MetricsState) : MetricsState := { st with connected := true }

/-- The SSE `es.onerror` handler (`useMetrics.ts` lines 55-58). -/
def onerror (st : MetricsState) : MetricsState := { st with connected := false }

/-- A well-formed stream payload `{recent: Sample[], summaries, total}`. -/
structure StreamPayload where
  recent : List JVal
  summaries : JVal
  total : Int

/-- JSON object carrying a well-formed stream payload. -/
def StreamPayload.encode (p : StreamPayload) : JVal :=
  .obj [("recent", .arr p.recent), ("summaries", p.summaries),
        ("total", .num p.total)]

/-- Folding a sequence of well-formed stream payloads through the message
handler, starting from the initial hook state. -/
def streamFold (ps : List StreamPayload) : MetricsState :=
  ps.foldl (fun st p => onmessage st (some p.encode)) initialMetricsState

/-- Outcome of an HTTP `fetch` whose body parses as JSON: `ok`/`status` and
body from the response. `request` in `src/frontend/src/utils/api.ts` turns a
non-`ok` response into a thrown `Error` with message `API <status>: <body>`;
a rejected `fetch` (network error) is the `Except.error` case of the
argument below. -/
structure HttpResult where
  ok : Bool
  status : Nat
  text : String
  json : JVal

/-- The `request` helper (`api.ts` lines 12-22), as a function of the settled
`fetch` promise: network failure propagates the error message, a non-success
response throws `API <status>: <body>`, a success response resolves to the
parsed JSON body. -/
def request (fetched : Except String HttpResult) : Except String JVal :=
  match fetched with
  | .error e => .error e
  | .ok res =>
    if res.ok then .ok res.json
    else .error ("API " ++ toString res.status ++ ": " ++ res.text)

/-- Message of the `TypeError` raised by `data.summaries` when the snapshot
body parses to `null` (caught by `fetchMetrics` and stored as the error). -/
def nullAccessMessage : String := "Cannot read properties of null"

/-- The `fetchMetrics` callback (`useMetrics.ts` lines 21-31) as a function
of the settled `getMetrics()` promise: on success it replaces `summaries`,
`comparison` and `totalInferences` and clears the error; on a thrown error
it stores the message and touches nothing else. -/
def fetchMetrics (st : MetricsState) (outcome : Except String JVal) :
    MetricsState :=
  match outcome with
  | .error msg => { st with error := some msg }
  | .ok data =>
    if data.accessThrows then { st with error := some nullAccessMessage }
    else
      { st with
        summaries := data.get "summaries"
        comparison := data.get "comparison"
        totalInferences := data.get "total_inferences"
        error := none }

/-!
Embedding of the benchmark orchestrator
(`src/frontend/src/hooks/useBenchmark.ts`).
-/

/-- Request body of the inference endpoint (`src/frontend/src/types/index.ts`).
Optimization modes and model sizes are string literals in the source and are
modelled as strings. -/
structure InferenceRequest where
  text : String
  optimization_mode : String
  model_size : String
  max_new_tokens : Int
deriving DecidableEq, Repr

/-- Response body of the inference endpoint. -/
structure InferenceResponse where
  result : String
  latency_ms : Int
  tokens_per_sec : Int
  tokens_generated : Int
  memory_mb : Int
  optimization_mode : String
  model_size : String
deriving DecidableEq, Repr

instance : Inhabited InferenceResponse :=
  ⟨⟨"", 0, 0, 0, 0, "", ""⟩⟩

/-- State of the `useBenchmark` hook (`useBenchmark.ts` lines 9-14). -/
structure BenchmarkState where
  loading : Bool
  activeMode : Option String
  results : List InferenceResponse
  error : Option String
deriving DecidableEq, Repr

/-- Initial `useBenchmark` state, also what `reset()` restores
(`useBenchmark.ts` lines 21-26 and 70-72). -/
def resetBenchState : BenchmarkState :=
  { loading := false, activeMode := none, results := [], error := none }

/-- One observable event of a `run(...)` invocation: either a `setState`
whose resulting observable state is recorded, or a `runInference` request
being issued. -/
inductive BenchStep where
  | publish (st : BenchmarkState) : BenchStep
  | request (r : InferenceRequest) : BenchStep
deriving DecidableEq, Repr

/-- Request built for one mode inside the `run` loop
(`useBenchmark.ts` lines 41-46). -/
def mkRequest (text mode modelSize : String) (maxNewTokens : Int) :
    InferenceRequest :=
  { text := text
    optimization_mode := mode
    model_size := modelSize
    max_new_tokens := maxNewTokens }

/-- Body of the `for (const mode of modes)` loop of `run`
(`useBenchmark.ts` lines 38-65), producing the trace of `setState`
publications and issued requests. `backend` describes the settled promise of
`runInference` for each request; `collected` is the local array of the same
name. On success the pushed result is republished and the loop continues;
on failure the handler publishes the error state and returns; after the
loop the final `setState` clears `loading` and `activeMode`. -/
def runGo (backend : InferenceRequest → Except String InferenceResponse)
    (text modelSize : String) (maxNewTokens : Int)
    (collected : List InferenceResponse) (st : BenchmarkState) :
    List String → List BenchStep
  | [] => [.publish { st with loading := false, activeMode := none }]
  | mode :: rest =>
    let st1 := { st with activeMode := some mode }
    let req := mkRequest text mode modelSize maxNewTokens
    .publish st1 :: .request req ::
      match backend req with
      | .ok res =>
        let c := collected ++ [res]
        let st2 := { st1 with results := c }
        .publish st2 :: runGo backend text modelSize maxNewTokens c st2 rest
      | .error msg =>
        [.publish { st1 with
            loading := false
            activeMode := none
            error := some ("Failed on " ++ mode ++ ": " ++ msg) }]

/-- A full `run(text, modes, modelSize, maxNewTokens)` invocation
(`useBenchmark.ts` lines 28-68): the initial wholesale `setState`, then the
sequential mode loop. -/
def runTrace (backend : InferenceRequest → Except String InferenceResponse)
    (text : String) (modes : List String) (modelSize : String)
    (maxNewTokens : Int) : List BenchStep :=
  let st0 : BenchmarkState :=
    { loading := true, activeMode := none, results := [], error := none }
  .publish st0 :: runGo backend text modelSize maxNewTokens [] st0 modes

/-- Observable state after a trace: the state of the last publication. -/
def finalState (tr : List BenchStep) : BenchmarkState :=
  tr.foldl (fun acc s => match s with
    | .publish st => st
    | .request _ => acc) resetBenchState

/-- Requests issued along a trace, in order. -/
def requests (tr : List BenchStep) : List InferenceRequest :=
  tr.filterMap (fun s => match s with
    | .request r => some r
    | .publish _ => none)

/-- Synchronous prefix of `run(text, [mode], ...)` up to the first `await`:
the wholesale initial `setState` followed by `activeMode := mode`; the
request for `mode` is then in flight. -/
def runPhaseStart (mode : String) : BenchmarkState → BenchmarkState :=
  fun _ => { loading := true, activeMode := some mode, results := [],
             error := none }

/-- Continuation of `run(text, [mode], ...)` once the (successful) response
arrives: `collected` is the closure-captured local array, now `[res]`, so
`setState(s => ({...s, results: [...collected]}))` runs against whatever the
current state is, followed by the post-loop `setState` clearing `loading`
and `activeMode`. -/
def runResumeAfterOk (res : InferenceResponse) :
    BenchmarkState → BenchmarkState :=
  fun s => { { s with results := [res] } with
             loading := false, activeMode := none }

/-!
Embedding of the display components `MetricsTable` and `ThroughputChart`
and of the `BenchmarkForm` mode selection.
-/

/-- Typed per-mode summary (`types/index.ts`): only `count` is inspected by
the client; the statistics blocks are carried opaquely. -/
structure LatencyStats where
  mean : Int
  p50 : Int
  p95 : Int
  p99 : Int
  min : Int
  max : Int
deriving DecidableEq, Repr

/-- Throughput statistics block of a summary. -/
structure ThroughputStats where
  mean_tokens_per_sec : Int
  max_tokens_per_sec : Int
  requests_per_sec : Int
deriving DecidableEq, Repr

/-- Memory statistics block of a summary. -/
structure MemoryStats where
  mean_mb : Int
  peak_mb : Int
deriving DecidableEq, Repr

/-- The `ModeSummary` record of `types/index.ts`. -/
structure ModeSummary where
  mode : String
  count : Int
  latency : LatencyStats
  throughput : ThroughputStats
  memory : MemoryStats
deriving DecidableEq, Repr

/-- The `ComparisonEntry` record: a summary extended with `speedup` and
`estimated_cost_per_1m_tokens`. -/
structure ComparisonEntry where
  summary : ModeSummary
  speedup : Int
  estimated_cost_per_1m_tokens : Int
deriving DecidableEq, Repr

/-- A `Record<string, A>` keyed by mode name, as an association list;
`lookup` models `record[key]`, yielding `undefined` (`none`) when absent. -/
def recordLookup (m : List (String × α)) (k : String) : Option α :=
  match m.find? (fun p => p.1 = k) with
  | some p => some p.2
  | none => none

/-- One entry of `MODE_CONFIGS` (`types/index.ts` lines 118-156). -/
structure ModeConfig where
  key : String
  label : String
  color : String
  description : String
deriving DecidableEq, Repr

/-- The `MODE_CONFIGS` constant (`types/index.ts` lines 125-156). -/
def MODE_CONFIGS : List ModeConfig :=
  [ { key := "baseline", label := "Baseline", color := "#64748B",
      description := "Standard PyTorch FP32 inference" },
    { key := "quantized", label := "Quantized", color := "#06B6D4",
      description := "INT8 dynamic quantization" },
    { key := "torchscript", label := "TorchScript", color := "#10B981",
      description := "TorchScript traced compilation" },
    { key := "onnx", label := "ONNX", color := "#F59E0B",
      description := "ONNX Runtime optimized inference" },
    { key := "batched", label := "Batched", color := "#EC4899",
      description := "Dynamic batching with queue" } ]

/-- The guard `summaries[m.key]?.count > 0` used by both `MetricsTable` and
`ThroughputChart` (`undefined > 0` is false in JavaScript). -/
def countPos (summaries : List (String × ModeSummary)) (k : String) : Bool :=
  match recordLookup summaries k with
  | some s => decide (s.count > 0)
  | none => false

/-- One row of the `MetricsTable` component. -/
structure TableRow where
  mode : String
  label : String
  color : String
  count : Int
  meanLatency : Int
  p95Latency : Int
  p99Latency : Int
  throughput : Int
  peakMemory : Int
  cost : Int
  speedup : Int
deriving DecidableEq, Repr

/-- Row built by `MetricsTable` for a selected mode config with summary `s`;
`c?.field ?? 0` is the `getD` on the optional comparison entry. -/
def mkTableRow (comparison : List (String × ComparisonEntry)) (m : ModeConfig)
    (s : ModeSummary) : TableRow :=
  { mode := m.key
    label := m.label
    color := m.color
    count := s.count
    meanLatency := s.latency.mean
    p95Latency := s.latency.p95
    p99Latency := s.latency.p99
    throughput := s.throughput.mean_tokens_per_sec
    peakMemory := s.memory.peak_mb
    cost := ((recordLookup comparison m.key).map
      (fun c => c.estimated_cost_per_1m_tokens)).getD 0
    speedup := ((recordLookup comparison m.key).map
      (fun c => c.speedup)).getD 0 }

/-- The row-selection pattern shared by `MetricsTable` and
`ThroughputChart`: `MODE_CONFIGS.filter((m) => summaries[m.key]?.count >
0).map(...)`, with the per-mode row constructor abstracted. The source
reads `summaries[m.key]` again inside the map after the filter guaranteed
it exists; `match` on the lookup expresses the same. -/
def selectedRowsOn (summaries : List (String × ModeSummary))
    (f : ModeConfig → ModeSummary → α) (cfgs : List ModeConfig) : List α :=
  (cfgs.filter (fun m => countPos summaries m.key)).filterMap
    (fun m =>
      match recordLookup summaries m.key with
      | some s => some (f m s)
      | none => none)

/-- The `rows` memo of `MetricsTable` (`src/unnamed/part_003` lines
18-36). -/
def metricsTableRows (summaries : List (String × ModeSummary))
    (comparison : List (String × ComparisonEntry)) : List TableRow :=
  selectedRowsOn summaries (mkTableRow comparison) MODE_CONFIGS

/-- The best-value highlights of `MetricsTable` (`part_003` lines 43-45),
computed from the already-filtered rows. -/
def bestLatency (rows : List TableRow) : Option Int :=
  (rows.map (fun r => r.meanLatency)).min?

/-- Best throughput highlight, `Math.max` over the rows. -/
def bestThroughput (rows : List TableRow) : Option Int :=
  (rows.map (fun r => r.throughput)).max?

/-- One bar of the `ThroughputChart` component. -/
structure ChartDatum where
  mode : String
  label : String
  mean : Int
  max : Int
  color : String
deriving DecidableEq, Repr

/-- The `data` memo of `ThroughputChart` (`src/unnamed/part_004` lines
38-49): same positive-count filter, mapped to chart data. -/
def throughputChartData (summaries : List (String × ModeSummary)) :
    List ChartDatum :=
  selectedRowsOn summaries
    (fun m s => { mode := m.key, label := m.label,
                  mean := s.throughput.mean_tokens_per_sec,
                  max := s.throughput.max_tokens_per_sec,
                  color := m.color })
    MODE_CONFIGS

/-- Initial mode selection of `BenchmarkForm`
(`src/unnamed/part_002` lines 34-36): `new Set(['baseline', 'quantized'])`.
A JavaScript `Set` is insertion-ordered and duplicate-free; it is modelled
as a list without duplicates. -/
def initialSelectedModes : List String := ["baseline", "quantized"]

/-- The `toggleMode` handler (`part_002` lines 38-48): deselecting is
refused when it would empty the selection (`next.size > 1` guard); adding
appends in insertion order. -/
def toggleMode (sel : List String) (mode : String) : List String :=
  if mode ∈ sel then
    if sel.length > 1 then sel.erase mode else sel
  else sel ++ [mode]

/-- JavaScript whitespace as trimmed by `String.prototype.trim` (restricted
to the ASCII whitespace characters relevant here). -/
def jsWhitespace (c : Char) : Bool :=
  c = ' ' ∨ c = '\t' ∨ c = '\n' ∨ c = '\r'

/-- JavaScript `text.trim()`: leading and trailing whitespace removed. -/
def jsTrim (s : String) : String :=
  String.mk (((s.data.dropWhile jsWhitespace).reverse.dropWhile
    jsWhitespace).reverse)

/-- The `handleSubmit` handler (`part_002` lines 50-54): nothing is
submitted while loading or when the trimmed prompt is empty; otherwise the
trimmed prompt and `Array.from(selectedModes)` are passed to `onSubmit`. -/
def handleSubmit (text : String) (loading : Bool) (sel : List String) :
    Option (String × List String) :=
  if jsTrim text = "" ∨ loading then none
  else some (jsTrim text, sel)

/-- All initial segments of a list, shortest first (proof scaffolding for
the orchestrator closed forms). -/
def prefixesOf : List α → List (List α)
  | [] => [[]]
  | a :: l => [] :: (prefixesOf l).map (fun t => a :: t)

/-- The three trace steps a successfully benchmarked mode `m` contributes,
given the results `done` already collected before it: publish
`activeMode := m`, issue the request, publish the appended result. -/
def okSegment (text modelSize : String) (maxNewTokens : Int)
    (resOf : String → InferenceResponse) (done : List InferenceResponse)
    (m : String) : List BenchStep :=
  [ .publish { loading := true, activeMode := some m, results := done,
               error := none },
    .request (mkRequest text m modelSize maxNewTokens),
    .publish { loading := true, activeMode := some m,
               results := done ++ [resOf m], error := none } ]

/-- Concrete two-batch stream used to witness the window property. -/
def wpayloads : List StreamPayload :=
  [ { recent := [.num 1, .num 2], summaries := .obj [], total := 2 },
    { recent := [.num 3], summaries := .obj [], total := 3 } ]

/-- Concrete metrics state with live data, used when evaluating the message
handler on a malformed payload. -/
def mState5 : MetricsState :=
  { initialMetricsState with
    summaries := .obj [("baseline", .num 1)]
    totalInferences := .num 3
    recentPoints := [.num 0] }

/-- Concrete successful snapshot response used to witness the fetch
contract. -/
def res7ok : HttpResult :=
  { ok := true, status := 200, text := "",
    json := .obj [("summaries", .obj []), ("comparison", .obj []),
                  ("total_inferences", .num 5)] }

/-- Concrete non-success snapshot response used to witness the fetch
contract. -/
def res7bad : HttpResult :=
  { ok := false, status := 500, text := "boom", json := .null }

/-- Concrete backend used by the orchestrator witnesses: every mode
succeeds except `quantized`, which rejects with message `boom`. -/
def backendW : InferenceRequest → Except String InferenceResponse :=
  fun r =>
    if r.optimization_mode = "quantized" then .error "boom"
    else .ok { result := "out", latency_ms := 5, tokens_per_sec := 6,
               tokens_generated := 7, memory_mb := 8,
               optimization_mode := r.optimization_mode,
               model_size := r.model_size }

/-- Per-mode success value of `backendW` for requests built from prompt
`hi` and model `gpt2`. -/
def resOfW : String → InferenceResponse :=
  fun m => { result := "out", latency_ms := 5, tokens_per_sec := 6,
             tokens_generated := 7, memory_mb := 8,
             optimization_mode := m, model_size := "gpt2" }

/-- Concrete response of an abandoned run arriving after a reset. -/
def lateRes : InferenceResponse :=
  { result := "stale", latency_ms := 1, tokens_per_sec := 2,
    tokens_generated := 3, memory_mb := 4,
    optimization_mode := "baseline", model_size := "gpt2" }

/-!
Lemmas about the recent-sample window.
-/

theorem sliceLast200_length_le (l : List α) : (sliceLast200 l).length ≤ 200 := by
  simp only [sliceLast200, List.length_drop]
  omega

theorem sliceLast200_eq_of_le (l : List α) (h : l.length ≤ 200) :
    sliceLast200 l = l := by
  simp [sliceLast200, Nat.sub_eq_zero_of_le h]

theorem sliceLast200_append_left (x y : List α) :
    sliceLast200 (sliceLast200 x ++ y) = sliceLast200 (x ++ y) := by
  unfold sliceLast200
  have h : List.drop (x.length - 200) x ++ y
      = List.drop (x.length - 200) (x ++ y) :=
    (List.drop_append_of_le_length (by omega)).symm
  rw [h, List.drop_drop]
  have h2 : x.length - 200
        + (((x ++ y).drop (x.length - 200)).length - 200)
      = (x ++ y).length - 200 := by
    simp only [List.length_drop, List.length_append]
    omega
  rw [h2]

set_option maxRecDepth 8192 in
/-- Action of the message handler on a well-formed payload: `summaries` and
`total` are replaced wholesale, the batch is merged into the window, and
nothing else changes. -/
theorem onmessage_encode (st : MetricsState) (p : StreamPayload) :
    onmessage st (some p.encode)
      = { st with summaries := p.summaries
                  totalInferences := .num p.total
                  recentPoints := mergeRecent st.recentPoints p.recent } := rfl

set_option maxRecDepth 8192 in
theorem streamFold_recentPoints :
    ∀ (ps : List StreamPayload) (st : MetricsState),
    st.recentPoints.length ≤ 200 →
    (ps.foldl (fun st p => onmessage st (some p.encode)) st).recentPoints
      = sliceLast200 (st.recentPoints ++ (ps.map StreamPayload.recent).flatten) := by
  intro ps
  induction ps with
  | nil =>
    intro st h
    simp [sliceLast200_eq_of_le _ h]
  | cons p ps ih =>
    intro st h
    rw [List.foldl_cons, onmessage_encode]
    rw [ih _ (sliceLast200_length_le _)]
    simp [mergeRecent, sliceLast200_append_left, List.append_assoc]

/-- C1: for every sequence of streamed batches merged by the stream message
handler, the stored recent-sample window never exceeds 200 entries, and
after each merge (every prefix of the sequence) it holds exactly the last
200 of all samples streamed so far, in arrival order, with the oldest
entries dropped first on overflow. -/
theorem c1_recent_window_bounded (ps : List StreamPayload) (k : Nat)
    (_hk : k ≤ ps.length) :
    (streamFold (ps.take k)).recentPoints
      = sliceLast200 (((ps.take k).map StreamPayload.recent).flatten)
    ∧ (streamFold (ps.take k)).recentPoints.length ≤ 200 := by
  have h := streamFold_recentPoints (ps.take k) initialMetricsState
    (by simp [initialMetricsState])
  simp only [initialMetricsState, List.nil_append] at h
  have h2 : (streamFold (ps.take k)).recentPoints
      = sliceLast200 (((ps.take k).map StreamPayload.recent).flatten) := h
  exact ⟨h2, by rw [h2]; exact sliceLast200_length_le _⟩

/-- Witness for C1 at a concrete two-batch stream. -/
theorem c1_recent_window_bounded_witness :
    2 ≤ wpayloads.length
    ∧ ((streamFold (wpayloads.take 2)).recentPoints
        = sliceLast200 (((wpayloads.take 2).map StreamPayload.recent).flatten)
      ∧ (streamFold (wpayloads.take 2)).recentPoints.length ≤ 200) :=
  ⟨by decide, c1_recent_window_bounded wpayloads 2 (by decide)⟩

set_option maxRecDepth 8192 in
/-- C5 (refuted; code bug): the handler does discard a payload that fails
JSON parsing without touching state, but a payload that parses and merely
has the wrong shape is not discarded: `\x7b"recent": [], "total": 7\x7d`
(no `summaries` field) overwrites `summaries` with `undefined` and
`totalInferences` with `7`. -/
theorem c5_malformed_payload_mutates_state :
    (onmessage mState5 none = mState5)
    ∧ (onmessage mState5 (some (.obj [("recent", .arr []), ("total", .num 7)]))).summaries
        = JVal.undefined
    ∧ (onmessage mState5 (some (.obj [("recent", .arr []), ("total", .num 7)]))).totalInferences
        = JVal.num 7
    ∧ mState5.summaries = JVal.obj [("baseline", JVal.num 1)]
    ∧ JVal.undefined ≠ JVal.obj [("baseline", JVal.num 1)] :=
  ⟨rfl, rfl, rfl, rfl, fun h => JVal.noConfusion h⟩

/-- C6: a well-formed stream event replaces `summaries` and
`totalInferences` wholesale with the payload's values, while the stored
comparison table is untouched by every stream callback (`onmessage`,
`onopen`, `onerror`); comparison changes only via the snapshot fetch. -/
theorem c6_stream_leaves_comparison_untouched :
    (∀ (st : MetricsState) (e : Option JVal),
      (onmessage st e).comparison = st.comparison)
    ∧ (∀ st : MetricsState, (onopen st).comparison = st.comparison)
    ∧ (∀ st : MetricsState, (onerror st).comparison = st.comparison)
    ∧ (∀ (st : MetricsState) (p : StreamPayload),
        (onmessage st (some p.encode)).summaries = p.summaries
        ∧ (onmessage st (some p.encode)).totalInferences = JVal.num p.total) := by
  refine ⟨?_, fun st => rfl, fun st => rfl, ?_⟩
  · intro st e
    cases e with
    | none => rfl
    | some d =>
      simp only [onmessage]
      split
      · rfl
      · split <;> rfl
  · intro st p
    rw [onmessage_encode]
    exact ⟨rfl, rfl⟩

/-- C7: the snapshot fetch replaces `summaries`, `comparison` and
`totalInferences` and clears the recorded error on success; on a network
error or a non-success response it records the error message and leaves
everything else exactly as it was. -/
theorem c7_fetch_success_replaces_failure_preserves (st : MetricsState) :
    (∀ res : HttpResult, res.ok = true → res.json.accessThrows = false →
      fetchMetrics st (request (.ok res))
        = { st with summaries := res.json.get "summaries"
                    comparison := res.json.get "comparison"
                    totalInferences := res.json.get "total_inferences"
                    error := none })
    ∧ (∀ msg : String,
        fetchMetrics st (request (.error msg)) = { st with error := some msg })
    ∧ (∀ res : HttpResult, res.ok = false →
      fetchMetrics st (request (.ok res))
        = { st with
            error := some ("API " ++ toString res.status ++ ": " ++ res.text) }) := by
  refine ⟨?_, fun msg => rfl, ?_⟩
  · intro res hok hthrows
    simp [request, hok, fetchMetrics, hthrows]
  · intro res hok
    simp [request, hok, fetchMetrics]

/-- Witness for C7 at concrete responses. -/
theorem c7_fetch_witness :
    (res7ok.ok = true ∧ res7ok.json.accessThrows = false ∧ res7bad.ok = false)
    ∧ fetchMetrics initialMetricsState (request (.ok res7ok))
        = { initialMetricsState with
            summaries := res7ok.json.get "summaries"
            comparison := res7ok.json.get "comparison"
            totalInferences := res7ok.json.get "total_inferences"
            error := none }
    ∧ fetchMetrics initialMetricsState (request (.error "network down"))
        = { initialMetricsState with error := some "network down" }
    ∧ fetchMetrics initialMetricsState (request (.ok res7bad))
        = { initialMetricsState with
            error := some ("API " ++ toString res7bad.status ++ ": "
              ++ res7bad.text) } :=
  ⟨⟨rfl, rfl, rfl⟩,
   (c7_fetch_success_replaces_failure_preserves initialMetricsState).1 res7ok
     rfl rfl,
   (c7_fetch_success_replaces_failure_preserves initialMetricsState).2.1
     "network down",
   (c7_fetch_success_replaces_failure_preserves initialMetricsState).2.2
     res7bad rfl⟩

/-- C8: the snapshot fetch is idempotent: applying it twice with an
identical backend outcome stores the same snapshot as applying it once. -/
theorem c8_fetch_idempotent (st : MetricsState)
    (outcome : Except String JVal) :
    fetchMetrics (fetchMetrics st outcome) outcome = fetchMetrics st outcome := by
  cases outcome with
  | error msg => rfl
  | ok data =>
    simp only [fetchMetrics]
    by_cases h : data.accessThrows <;> simp [h]

/-!
Lemmas about the orchestrator trace.
-/

theorem prefixesOf_length : ∀ (l : List α), (prefixesOf l).length = l.length + 1
  | [] => rfl
  | _ :: l => by simp [prefixesOf, prefixesOf_length l]

theorem map_snd_zip_prefixesOf (l : List α) :
    ((prefixesOf l).zip l).map Prod.snd = l :=
  List.map_snd_zip _ _ (by rw [prefixesOf_length]; omega)

theorem requests_append (a b : List BenchStep) :
    requests (a ++ b) = requests a ++ requests b := by
  simp [requests, List.filterMap_append]

theorem requests_segFlatten (text modelSize : String) (maxNewTokens : Int)
    (resOf : String → InferenceResponse)
    (doneOf : List String × String → List InferenceResponse) :
    ∀ (pairs : List (List String × String)),
    requests ((pairs.map (fun q =>
        okSegment text modelSize maxNewTokens resOf (doneOf q) q.2)).flatten)
      = pairs.map (fun q => mkRequest text q.2 modelSize maxNewTokens) := by
  intro pairs
  induction pairs with
  | nil => rfl
  | cons q pairs ih =>
    simp only [List.map_cons, List.flatten_cons, requests_append, ih]
    simp [okSegment, requests]

theorem runGo_ok_trace
    (backend : InferenceRequest → Except String InferenceResponse)
    (text modelSize : String) (maxNewTokens : Int)
    (resOf : String → InferenceResponse) :
    ∀ (modes : List String) (collected : List InferenceResponse)
      (am : Option String),
    (∀ m ∈ modes,
      backend (mkRequest text m modelSize maxNewTokens) = .ok (resOf m)) →
    runGo backend text modelSize maxNewTokens collected
        { loading := true, activeMode := am, results := collected,
          error := none } modes
      = (((prefixesOf modes).zip modes).map (fun q =>
          okSegment text modelSize maxNewTokens resOf
            (collected ++ q.1.map resOf) q.2)).flatten
        ++ [.publish { loading := false, activeMode := none,
                       results := collected ++ modes.map resOf,
                       error := none }] := by
  intro modes
  induction modes with
  | nil =>
    intro collected am _
    simp [runGo, prefixesOf]
  | cons m rest ih =>
    intro collected am h
    have hm : backend (mkRequest text m modelSize maxNewTokens)
        = .ok (resOf m) := h m (by simp)
    have hrest : ∀ x ∈ rest,
        backend (mkRequest text x modelSize maxNewTokens) = .ok (resOf x) :=
      fun x hx => h x (by simp [hx])
    simp only [runGo, hm]
    rw [ih (collected ++ [resOf m]) (some m) hrest]
    simp only [okSegment, prefixesOf, List.zip_map_left, List.map_map,
      List.zip_cons_cons, List.map_cons, List.flatten_cons, List.map_nil,
      List.append_assoc, List.nil_append, List.cons_append,
      List.append_nil, List.singleton_append]
    simp only [List.cons.injEq, eq_self_iff_true, true_and]
    congr 1

theorem runGo_fail_trace
    (backend : InferenceRequest → Except String InferenceResponse)
    (text modelSize : String) (maxNewTokens : Int)
    (resOf : String → InferenceResponse)
    (mf : String) (rest : List String) (msg : String)
    (hfail : backend (mkRequest text mf modelSize maxNewTokens) = .error msg) :
    ∀ (pre : List String) (collected : List InferenceResponse)
      (am : Option String),
    (∀ a ∈ pre,
      backend (mkRequest text a modelSize maxNewTokens) = .ok (resOf a)) →
    runGo backend text modelSize maxNewTokens collected
        { loading := true, activeMode := am, results := collected,
          error := none } (pre ++ mf :: rest)
      = (((prefixesOf pre).zip pre).map (fun q =>
          okSegment text modelSize maxNewTokens resOf
            (collected ++ q.1.map resOf) q.2)).flatten
        ++ [.publish { loading := true, activeMode := some mf,
                       results := collected ++ pre.map resOf, error := none },
            .request (mkRequest text mf modelSize maxNewTokens),
            .publish { loading := false, activeMode := none,
                       results := collected ++ pre.map resOf,
                       error := some ("Failed on " ++ mf ++ ": " ++ msg) }] := by
  intro pre
  induction pre with
  | nil =>
    intro collected am _
    simp [runGo, hfail, prefixesOf]
  | cons a pre ih =>
    intro collected am h
    have ha : backend (mkRequest text a modelSize maxNewTokens)
        = .ok (resOf a) := h a (by simp)
    have hpre : ∀ x ∈ pre,
        backend (mkRequest text x modelSize maxNewTokens) = .ok (resOf x) :=
      fun x hx => h x (by simp [hx])
    simp only [List.cons_append, runGo, ha, List.append_eq]
    rw [ih (collected ++ [resOf a]) (some a) hpre]
    simp only [okSegment, prefixesOf, List.zip_map_left, List.map_map,
      List.zip_cons_cons, List.map_cons, List.flatten_cons, List.map_nil,
      List.append_assoc, List.nil_append, List.cons_append,
      List.append_nil, List.singleton_append]
    simp only [List.cons.injEq, eq_self_iff_true, true_and]
    congr 1

theorem map_request_snd (text modelSize : String) (maxNewTokens : Int)
    (pairs : List (List String × String)) :
    pairs.map (fun q => mkRequest text q.2 modelSize maxNewTokens)
      = (pairs.map Prod.snd).map
          (fun m => mkRequest text m modelSize maxNewTokens) := by
  rw [List.map_map]
  rfl

/-- C2: when the modes list is `pre ++ mf :: rest` and every mode of `pre`
succeeds while `mf` fails, the run ends with `loading` cleared, an error
message naming the failing mode and the backend's message, exactly the
results of the successful prefix retained and observable, and requests
issued only for `pre ++ [mf]` — never for any mode after the failure. -/
theorem c2_first_failure_halts_run
    (backend : InferenceRequest → Except String InferenceResponse)
    (text modelSize : String) (maxNewTokens : Int)
    (pre : List String) (mf : String) (rest : List String)
    (resOf : String → InferenceResponse) (msg : String)
    (hok : ∀ a ∈ pre,
      backend (mkRequest text a modelSize maxNewTokens) = .ok (resOf a))
    (hfail : backend (mkRequest text mf modelSize maxNewTokens) = .error msg) :
    finalState (runTrace backend text (pre ++ mf :: rest) modelSize maxNewTokens)
      = { loading := false, activeMode := none, results := pre.map resOf,
          error := some ("Failed on " ++ mf ++ ": " ++ msg) }
    ∧ requests (runTrace backend text (pre ++ mf :: rest) modelSize maxNewTokens)
      = (pre ++ [mf]).map (fun m => mkRequest text m modelSize maxNewTokens) := by
  have htrace := runGo_fail_trace backend text modelSize maxNewTokens resOf
    mf rest msg hfail pre [] none hok
  simp only [List.nil_append] at htrace
  constructor
  · simp only [runTrace]
    rw [htrace]
    simp [finalState, List.foldl_append]
  · simp only [runTrace]
    rw [htrace]
    have hF := requests_segFlatten text modelSize maxNewTokens resOf
      (fun q => q.1.map resOf) ((prefixesOf pre).zip pre)
    simp only [requests] at hF ⊢
    simp only [List.filterMap_cons, List.filterMap_append, List.filterMap_nil,
      hF]
    rw [map_request_snd, map_snd_zip_prefixesOf]
    simp

set_option maxRecDepth 8192 in
/-- Witness for C2: `backendW` fails on `quantized`; running
`[baseline, quantized, onnx]` keeps the baseline result, reports
`Failed on quantized: boom`, and issues no request for `onnx`. -/
theorem c2_first_failure_witness :
    finalState (runTrace backendW "hi" (["baseline"] ++ "quantized" :: ["onnx"])
        "gpt2" 30)
      = { loading := false, activeMode := none,
          results := ["baseline"].map resOfW,
          error := some ("Failed on " ++ "quantized" ++ ": " ++ "boom") }
    ∧ requests (runTrace backendW "hi" (["baseline"] ++ "quantized" :: ["onnx"])
        "gpt2" 30)
      = (["baseline"] ++ ["quantized"]).map (fun m => mkRequest "hi" m "gpt2" 30) :=
  c2_first_failure_halts_run backendW "hi" "gpt2" 30 ["baseline"] "quantized"
    ["onnx"] resOfW "boom" (by intro a ha; fin_cases ha; rfl) rfl

/-- C3: when every mode succeeds, the run ends with `loading` cleared,
`activeMode` cleared, and exactly one result per requested mode in request
order; moreover the full trace is the initial wholesale publish, then for
each mode in order a publish setting `activeMode` to it *before* its
request is issued, followed by a publish of the appended result *before*
the next mode's segment, and finally the completion publish. -/
theorem c3_all_success_run
    (backend : InferenceRequest → Except String InferenceResponse)
    (text modelSize : String) (maxNewTokens : Int)
    (modes : List String) (resOf : String → InferenceResponse)
    (_hne : modes ≠ [])
    (hok : ∀ m ∈ modes,
      backend (mkRequest text m modelSize maxNewTokens) = .ok (resOf m)) :
    finalState (runTrace backend text modes modelSize maxNewTokens)
      = { loading := false, activeMode := none, results := modes.map resOf,
          error := none }
    ∧ requests (runTrace backend text modes modelSize maxNewTokens)
      = modes.map (fun m => mkRequest text m modelSize maxNewTokens)
    ∧ runTrace backend text modes modelSize maxNewTokens
      = .publish { loading := true, activeMode := none, results := [],
                   error := none }
        :: ((((prefixesOf modes).zip modes).map (fun q =>
              okSegment text modelSize maxNewTokens resOf
                (q.1.map resOf) q.2)).flatten
          ++ [.publish { loading := false, activeMode := none,
                         results := modes.map resOf, error := none }]) := by
  have htrace := runGo_ok_trace backend text modelSize maxNewTokens resOf
    modes [] none hok
  simp only [List.nil_append] at htrace
  refine ⟨?_, ?_, ?_⟩
  · simp only [runTrace]
    rw [htrace]
    simp [finalState, List.foldl_append]
  · simp only [runTrace]
    rw [htrace]
    have hF := requests_segFlatten text modelSize maxNewTokens resOf
      (fun q => q.1.map resOf) ((prefixesOf modes).zip modes)
    simp only [requests] at hF ⊢
    simp only [List.filterMap_cons, List.filterMap_append, List.filterMap_nil,
      hF]
    rw [map_request_snd, map_snd_zip_prefixesOf]
    simp
  · simp only [runTrace]
    rw [htrace]

set_option maxRecDepth 8192 in
/-- Witness for C3 with two succeeding modes. -/
theorem c3_all_success_witness :
    finalState (runTrace backendW "hi" ["baseline", "onnx"] "gpt2" 30)
      = { loading := false, activeMode := none,
          results := ["baseline", "onnx"].map resOfW, error := none }
    ∧ requests (runTrace backendW "hi" ["baseline", "onnx"] "gpt2" 30)
      = ["baseline", "onnx"].map (fun m => mkRequest "hi" m "gpt2" 30)
    ∧ runTrace backendW "hi" ["baseline", "onnx"] "gpt2" 30
      = .publish { loading := true, activeMode := none, results := [],
                   error := none }
        :: ((((prefixesOf ["baseline", "onnx"]).zip ["baseline", "onnx"]).map
              (fun q => okSegment "hi" "gpt2" 30 resOfW
                (q.1.map resOfW) q.2)).flatten
          ++ [.publish { loading := false, activeMode := none,
                         results := ["baseline", "onnx"].map resOfW,
                         error := none }]) :=
  c3_all_success_run backendW "hi" "gpt2" 30 ["baseline", "onnx"] resOfW
    (List.cons_ne_nil _ _) (by intro m hm; fin_cases hm <;> rfl)

/-- The phase decomposition of a one-mode run agrees with the uninterrupted
trace semantics: resuming the continuation on the state the first phase
produced gives exactly the final state of the full run. -/
theorem phases_match_trace
    (backend : InferenceRequest → Except String InferenceResponse)
    (text mode modelSize : String) (maxNewTokens : Int)
    (res : InferenceResponse)
    (h : backend (mkRequest text mode modelSize maxNewTokens) = .ok res)
    (st : BenchmarkState) :
    runResumeAfterOk res (runPhaseStart mode st)
      = finalState (runTrace backend text [mode] modelSize maxNewTokens) := by
  simp [runTrace, runGo, h, finalState, runPhaseStart, runResumeAfterOk]

/-- C4 (refuted; code bug): `run` keeps no run generation or token, so a
response of an abandoned run that arrives after `reset()` is *not* ignored:
resuming the in-flight continuation on the freshly reset state overwrites
`results` with the stale result. -/
theorem c4_late_response_overwrites_reset :
    runResumeAfterOk lateRes resetBenchState
      = { loading := false, activeMode := none, results := [lateRes],
          error := none }
    ∧ resetBenchState.results = []
    ∧ (runResumeAfterOk lateRes resetBenchState).results ≠ []
    ∧ runPhaseStart "baseline" resetBenchState
      = { loading := true, activeMode := some "baseline", results := [],
          error := none } :=
  ⟨rfl, rfl, by decide, rfl⟩

/-!
Lemmas about the display components and the form's mode selection.
-/

theorem countPos_lookup {summaries : List (String × ModeSummary)} {k : String}
    (h : countPos summaries k = true) :
    ∃ s, recordLookup summaries k = some s ∧ s.count > 0 := by
  unfold countPos at h
  cases hl : recordLookup summaries k with
  | none => rw [hl] at h; exact absurd h (by simp)
  | some s =>
    rw [hl] at h
    exact ⟨s, rfl, by simpa using h⟩

theorem selectedRowsOn_map_mode (summaries : List (String × ModeSummary))
    (f : ModeConfig → ModeSummary → α) (modeOf : α → String)
    (hmode : ∀ m s, modeOf (f m s) = m.key) :
    ∀ (cfgs : List ModeConfig),
    (selectedRowsOn summaries f cfgs).map modeOf
      = (cfgs.map ModeConfig.key).filter (countPos summaries) := by
  intro cfgs
  induction cfgs with
  | nil => rfl
  | cons c cfgs ih =>
    by_cases h : countPos summaries c.key
    · obtain ⟨s, hl, _⟩ := countPos_lookup h
      simp [selectedRowsOn, List.filter_cons, h, hl, hmode]
      simpa [selectedRowsOn] using ih
    · simp [selectedRowsOn, List.filter_cons, h]
      simpa [selectedRowsOn] using ih

/-- C9: both the metrics table rows and the throughput chart bars contain
exactly the configured modes whose stored summary has `count > 0`, in
configuration order; a mode with `count = 0` or with no summary at all is
excluded, so only positive-count modes feed the rows and the best-value
rankings computed from them. -/
theorem c9_zero_count_modes_excluded
    (summaries : List (String × ModeSummary))
    (comparison : List (String × ComparisonEntry)) :
    (metricsTableRows summaries comparison).map TableRow.mode
      = (MODE_CONFIGS.map ModeConfig.key).filter (countPos summaries)
    ∧ (throughputChartData summaries).map ChartDatum.mode
      = (MODE_CONFIGS.map ModeConfig.key).filter (countPos summaries) := by
  constructor
  · exact selectedRowsOn_map_mode summaries (mkTableRow comparison)
      TableRow.mode (fun _ _ => rfl) MODE_CONFIGS
  · unfold throughputChartData
    exact selectedRowsOn_map_mode summaries _ ChartDatum.mode
      (fun _ _ => rfl) MODE_CONFIGS

theorem toggleMode_ne_nil (sel : List String) (m : String) (h : sel ≠ []) :
    toggleMode sel m ≠ [] := by
  unfold toggleMode
  split
  · split
    · intro hnil
      rename_i hmem hlen
      have hlen2 : (sel.erase m).length = sel.length - 1 := by
        rw [List.length_erase]
        simp [hmem]
      rw [hnil] at hlen2
      simp at hlen2
      omega
    · exact h
  · simp

theorem foldl_toggle_ne_nil :
    ∀ (toggles : List String) (sel : List String), sel ≠ [] →
    toggles.foldl toggleMode sel ≠ [] := by
  intro toggles
  induction toggles with
  | nil => intro sel h; exact h
  | cons t ts ih => intro sel h; exact ih _ (toggleMode_ne_nil sel t h)

/-- C10: starting from the initial `\x7bbaseline, quantized\x7d` selection, no
sequence of `toggleMode` clicks can empty the selection; toggling off the
sole remaining selected mode is a no-op; and every submission that
`handleSubmit` lets through carries a non-empty mode list. -/
theorem c10_selection_never_empty (toggles : List String) :
    toggles.foldl toggleMode initialSelectedModes ≠ []
    ∧ (∀ m, toggles.foldl toggleMode initialSelectedModes = [m] →
        toggleMode (toggles.foldl toggleMode initialSelectedModes) m
          = toggles.foldl toggleMode initialSelectedModes)
    ∧ (∀ (text : String) (loading : Bool) (out : String × List String),
        handleSubmit text loading (toggles.foldl toggleMode initialSelectedModes)
          = some out →
        out.2 ≠ []) := by
  have hne := foldl_toggle_ne_nil toggles initialSelectedModes
    (by simp [initialSelectedModes])
  refine ⟨hne, ?_, ?_⟩
  · intro m hm
    rw [hm]
    simp [toggleMode]
  · intro text loading out hsub
    unfold handleSubmit at hsub
    split at hsub
    · exact absurd hsub (by simp)
    · cases hsub
      simpa using hne

set_option maxRecDepth 8192 in
/-- Witness for C10: after toggling `baseline` off, the selection is the
sole mode `quantized`; toggling it again is a no-op and a submission passes
it through non-empty. -/
theorem c10_selection_witness :
    (["baseline"] : List String).foldl toggleMode initialSelectedModes ≠ []
    ∧ toggleMode ((["baseline"] : List String).foldl toggleMode
          initialSelectedModes) "quantized"
      = (["baseline"] : List String).foldl toggleMode initialSelectedModes
    ∧ (("hi", ["quantized"]) : String × List String).2 ≠ [] :=
  have h := c10_selection_never_empty ["baseline"]
  ⟨h.1, h.2.1 "quantized" (by decide),
   h.2.2 "hi" false ("hi", ["quantized"]) (by decide)⟩
